import Mathlib

/-!
Verification of the message-parsing layer of the Skybrush Live message hub
(`src/message-hub.js`): the functions
`extractResultOrReceiptFromMaybeAsyncResponse` and `extractResponseForId`
together with the `MESSAGES_WITH_RECEIPTS` allow-list, shallowly embedded
over a model of JavaScript values.
-/

namespace SkybrushLive

/-- Model of a JavaScript value, as far as the message-parsing code observes
them: `undefined`, `null`, booleans, (integer) numbers, strings and plain
objects modelled as association lists from string keys to values. -/
inductive JSVal where
  | undefined : JSVal
  | null : JSVal
  | bool : Bool → JSVal
  | num : Int → JSVal
  | str : String → JSVal
  | obj : List (String × JSVal) → JSVal

/-- JavaScript truthiness of a value (`if (v)`). -/
def jsTruthy : JSVal → Bool
  | .undefined => false
  | .null => false
  | .bool b => b
  | .num n => n != 0
  | .str s => s != ""
  | .obj _ => true

/-- The JavaScript `typeof` operator; note that `typeof null` is `object`. -/
def jsTypeof : JSVal → String
  | .undefined => "undefined"
  | .null => "object"
  | .bool _ => "boolean"
  | .num _ => "number"
  | .str _ => "string"
  | .obj _ => "object"

/-- JavaScript string conversion `String(v)`, as used by `new Error(v)` and
by template literals; plain objects stringify by the default prototype
method. -/
def jsToString : JSVal → String
  | .undefined => "undefined"
  | .null => "null"
  | .bool true => "true"
  | .bool false => "false"
  | .num n => toString n
  | .str s => s
  | .obj _ => "[object Object]"

/-- The short-circuiting JavaScript `a || b`. -/
def jsOr (a b : JSVal) : JSVal :=
  if jsTruthy a then a else b

/-- Whether a value is exactly `undefined` (strict comparison `v === undefined`). -/
def isUndefined : JSVal → Bool
  | .undefined => true
  | _ => false

/-- Strict equality of a value against a string literal (`v === "lit"`). -/
def strictEqStr (v : JSVal) (s : String) : Bool :=
  match v with
  | .str t => t == s
  | _ => false

/-- Property access `v[k]` on a value known not to be `null`/`undefined`:
objects yield the stored entry or `undefined`, primitives yield `undefined`
(none of their built-in properties is observed by this code). -/
def getField (v : JSVal) (k : String) : JSVal :=
  match v with
  | .obj fields => (fields.lookup k).getD .undefined
  | _ => .undefined

/-- Property access `v[k]` in full generality: on `null` or `undefined` it
throws a `TypeError` (modelled as `none`). -/
def propAccess (v : JSVal) (k : String) : Option JSVal :=
  match v with
  | .null => none
  | .undefined => none
  | .obj fields => some ((fields.lookup k).getD .undefined)
  | _ => some .undefined

/-- The lodash `get(object, path)` helper: walks the path, yielding
`undefined` as soon as a step is missing or the current value is not an
object; it never throws. -/
def lodashGet : JSVal → List String → JSVal
  | v, [] => v
  | .obj fields, k :: rest => lodashGet ((fields.lookup k).getD .undefined) rest
  | _, _ :: _ => .undefined

/-- An exceptional outcome of running a parsing function: either an
explicitly thrown error object (constructor name and message), or the
implicit `TypeError` raised by accessing a property of `null`/`undefined`. -/
inductive JSException where
  | thrown : String → String → JSException
  | typeErrorCrash : JSException
deriving DecidableEq, Repr

/-- The truthiness test `error && error[uavId] !== undefined` (and its
`result`/`receipt` analogues): the map is truthy and has a non-`undefined`
entry for the key. -/
def hasEntryFor (m : JSVal) (k : String) : Bool :=
  jsTruthy m && !(isUndefined (getField m k))

/-- The fixed allow-list of message types known to carry per-target
receipts, from `src/message-hub.js`. -/
def MESSAGES_WITH_RECEIPTS : JSVal :=
  .obj
    [ ("OBJ-CMD", .bool true),
      ("UAV-FLY", .bool true),
      ("UAV-HALT", .bool true),
      ("UAV-LAND", .bool true),
      ("UAV-RST", .bool true),
      ("UAV-RTH", .bool true),
      ("UAV-SIGNAL", .bool true),
      ("UAV-TAKEOFF", .bool true) ]

/-- Embedding of `extractResultOrReceiptFromMaybeAsyncResponse(message, uavId)`
from `src/message-hub.js`. The JavaScript function destructures
`const \x7b body \x7d = message` and `const \x7b type \x7d = body` (crashing when the
respective value is `null`/`undefined`), then branches on the type read from
`message.body.type`. -/
def extractResultOrReceiptFromMaybeAsyncResponse (message : JSVal) (uavId : String) :
    Except JSException JSVal :=
  match propAccess message "body" with
  | none => .error .typeErrorCrash
  | some body =>
    match propAccess body "type" with
    | none => .error .typeErrorCrash
    | some type =>
      if strictEqStr type "ACK-NAK" then
        .error (.thrown "Error"
          (jsToString (jsOr (getField body "reason")
            (.str "ACK-NAK received; no reason given"))))
      else if jsTruthy (getField MESSAGES_WITH_RECEIPTS (jsToString type)) then
        let error := getField body "error"
        let receipt := getField body "receipt"
        let result := getField body "result"
        if hasEntryFor error uavId then
          .error (.thrown "Error"
            (jsToString (jsOr (getField (getField body "error") uavId)
              (.str "Failed to execute command"))))
        else if hasEntryFor result uavId then
          .ok (.obj [("result", getField result uavId)])
        else if hasEntryFor receipt uavId then
          .ok (.obj [("receipt", getField receipt uavId)])
        else
          .error (.thrown "Error"
            "Server did not provide a response or receipt for the command")
      else
        .error (.thrown "Error" (jsToString type ++ " messages do not contain receipts"))

/-- The tail of `extractResponseForId` (the status lookup and the final
inconsistency error), reached when the error branch above it was not
taken. -/
def statusLookupForId (message : JSVal) (id : String) : Except JSException JSVal :=
  let results := lodashGet message ["body", "status"]
  if jsTypeof results == "object" then
    match propAccess results id with
    | none => .error .typeErrorCrash
    | some r =>
      if !(isUndefined r) then
        .ok r
      else
        .error (.thrown "Error"
          ("No result for ID " ++ id ++ " but no error either; this should not have happened."))
  else
    .error (.thrown "Error"
      ("No result for ID " ++ id ++ " but no error either; this should not have happened."))

/-- Embedding of `extractResponseForId(message, id, options)` from
`src/message-hub.js`. The error map is consulted first; only when it yields
no applicable entry does control fall through to the status map. -/
def extractResponseForId (message : JSVal) (id : String) (options : JSVal) :
    Except JSException JSVal :=
  let errors := lodashGet message ["body", "error"]
  if jsTypeof errors == "object" then
    match propAccess errors id with
    | none => .error .typeErrorCrash
    | some e =>
      if !(isUndefined e) then
        if jsTypeof e == "string" then
          .error (.thrown "TypeError" (jsToString e))
        else
          match propAccess options "error" with
          | none => .error .typeErrorCrash
          | some errOpt =>
            .error (.thrown "Error"
              (jsToString (jsOr errOpt
                (.str ("Failed to retrieve result for ID " ++ id ++ " from response")))))
      else
        statusLookupForId message id
  else
    statusLookupForId message id

/-- Modelled from the spec: the `Timeout` case of the error taxonomy. The
command dispatcher and receipt resolution loop (the `flockwave/messages`
module) are not under src; per the spec, when the client-side deadline of
`sendCommand` elapses, every unresolved target receives an outcome of
`Error(timeout)`, which is a failure shape distinct from any error thrown
by the extractor. -/
def timeoutFailure : JSException := .thrown "Error" "timeout"

/-- A message of the wire shape documented by the spec for rejections, with
the type tag at the top level of the envelope rather than inside the body. -/
def ackNakDocShapeMsg : JSVal :=
  .obj [("type", .str "ACK-NAK"), ("body", .obj [("reason", .str "busy")])]

/-- A rejection message shaped the way the code actually reads it (type tag
inside the body) and carrying no reason field. -/
def ackNakNoReasonMsg : JSVal :=
  .obj [("body", .obj [("type", .str "ACK-NAK")])]

/-- A status-style response whose status and error maps both have an entry
for id `a`. -/
def statusAndErrorMsg : JSVal :=
  .obj [("body", .obj [("status", .obj [("a", .num 1)]),
                       ("error", .obj [("a", .str "boom")])])]

/-- A string type tag is recognized by the allow-list exactly when it is one
of the eight receipt-bearing command types. -/
theorem receiptBearing_iff (t : String) :
    jsTruthy (getField MESSAGES_WITH_RECEIPTS t) = true ↔
      (t = "OBJ-CMD" ∨ t = "UAV-FLY" ∨ t = "UAV-HALT" ∨ t = "UAV-LAND" ∨
       t = "UAV-RST" ∨ t = "UAV-RTH" ∨ t = "UAV-SIGNAL" ∨ t = "UAV-TAKEOFF") := by
  by_cases h1 : t = "OBJ-CMD"
  · subst h1; decide
  by_cases h2 : t = "UAV-FLY"
  · subst h2; decide
  by_cases h3 : t = "UAV-HALT"
  · subst h3; decide
  by_cases h4 : t = "UAV-LAND"
  · subst h4; decide
  by_cases h5 : t = "UAV-RST"
  · subst h5; decide
  by_cases h6 : t = "UAV-RTH"
  · subst h6; decide
  by_cases h7 : t = "UAV-SIGNAL"
  · subst h7; decide
  by_cases h8 : t = "UAV-TAKEOFF"
  · subst h8; decide
  have b1 : (t == "OBJ-CMD") = false := beq_eq_false_iff_ne.mpr h1
  have b2 : (t == "UAV-FLY") = false := beq_eq_false_iff_ne.mpr h2
  have b3 : (t == "UAV-HALT") = false := beq_eq_false_iff_ne.mpr h3
  have b4 : (t == "UAV-LAND") = false := beq_eq_false_iff_ne.mpr h4
  have b5 : (t == "UAV-RST") = false := beq_eq_false_iff_ne.mpr h5
  have b6 : (t == "UAV-RTH") = false := beq_eq_false_iff_ne.mpr h6
  have b7 : (t == "UAV-SIGNAL") = false := beq_eq_false_iff_ne.mpr h7
  have b8 : (t == "UAV-TAKEOFF") = false := beq_eq_false_iff_ne.mpr h8
  simp [MESSAGES_WITH_RECEIPTS, getField, List.lookup, b1, b2, b3, b4, b5, b6, b7, b8,
    jsTruthy, h1, h2, h3, h4, h5, h6, h7, h8]

/-- No receipt-bearing type is the rejection type. -/
theorem receiptBearing_ne_ackNak (t : String)
    (h : jsTruthy (getField MESSAGES_WITH_RECEIPTS t) = true) : t ≠ "ACK-NAK" := by
  rcases (receiptBearing_iff t).mp h with h | h | h | h | h | h | h | h <;> subst h <;> decide

/-- On a response whose body-level type tag is a receipt-bearing string,
the extractor reduces to the error, result, receipt branch cascade. -/
theorem extract_receiptBearing_eq (message body : JSVal) (t uavId : String)
    (hm : propAccess message "body" = some body)
    (ht : propAccess body "type" = some (.str t))
    (hrb : jsTruthy (getField MESSAGES_WITH_RECEIPTS t) = true) :
    extractResultOrReceiptFromMaybeAsyncResponse message uavId =
      if hasEntryFor (getField body "error") uavId then
        .error (.thrown "Error"
          (jsToString (jsOr (getField (getField body "error") uavId)
            (.str "Failed to execute command"))))
      else if hasEntryFor (getField body "result") uavId then
        .ok (.obj [("result", getField (getField body "result") uavId)])
      else if hasEntryFor (getField body "receipt") uavId then
        .ok (.obj [("receipt", getField (getField body "receipt") uavId)])
      else
        .error (.thrown "Error"
          "Server did not provide a response or receipt for the command") := by
  have hne : t ≠ "ACK-NAK" := receiptBearing_ne_ackNak t hrb
  unfold extractResultOrReceiptFromMaybeAsyncResponse
  rw [hm]
  dsimp only
  rw [ht]
  dsimp only
  simp only [strictEqStr, beq_eq_false_iff_ne.mpr hne, jsToString, hrb, if_false, if_true,
    Bool.false_eq_true, ite_false, ite_true]

/-- Appending a nonempty string on the right fixes the last character. -/
theorem string_append_getLast (a b : String) (h : b.data ≠ []) :
    (a ++ b).data.getLast? = b.data.getLast? := by
  rw [String.data_append]
  exact List.getLast?_append_of_ne_nil a.data h

/-- The status-lookup tail returns the status entry when the status map is
an object with a defined entry for the requested id. -/
theorem statusLookupForId_ok (message : JSVal) (id : String)
    (sfs : List (String × JSVal)) (v : JSVal)
    (hs : lodashGet message ["body", "status"] = .obj sfs)
    (hv : sfs.lookup id = some v)
    (hnu : isUndefined v = false) :
    statusLookupForId message id = .ok v := by
  unfold statusLookupForId
  dsimp only
  rw [hs, if_pos (by simp [jsTypeof])]
  dsimp only [propAccess]
  rw [hv]
  dsimp only [Option.getD]
  simp [hnu]

/-- The status-lookup tail throws the internal-inconsistency error when the
status map yields no defined entry for the requested id. -/
theorem statusLookupForId_missing (message : JSVal) (id : String)
    (hst : jsTypeof (lodashGet message ["body", "status"]) ≠ "object" ∨
           ∃ sfs, lodashGet message ["body", "status"] = .obj sfs ∧
                  isUndefined (getField (.obj sfs) id) = true) :
    statusLookupForId message id
      = .error (.thrown "Error"
          ("No result for ID " ++ id ++ " but no error either; this should not have happened.")) := by
  unfold statusLookupForId
  dsimp only
  rcases hst with h | ⟨sfs, hs, hu⟩
  · rw [if_neg (by simp [beq_iff_eq]; exact h)]
  · rw [hs, if_pos (by simp [jsTypeof])]
    dsimp only [propAccess]
    simp only [getField] at hu
    simp [hu]

/-- When the error map yields no applicable entry, `extractResponseForId`
falls through to the status lookup, whatever the options are. -/
theorem extractResponseForId_fallThrough (message : JSVal) (id : String) (options : JSVal)
    (herr : jsTypeof (lodashGet message ["body", "error"]) ≠ "object" ∨
            ∃ efs, lodashGet message ["body", "error"] = .obj efs ∧
                   isUndefined (getField (.obj efs) id) = true) :
    extractResponseForId message id options = statusLookupForId message id := by
  unfold extractResponseForId
  dsimp only
  rcases herr with h | ⟨efs, he, hu⟩
  · rw [if_neg (by simp [beq_iff_eq]; exact h)]
  · rw [he, if_pos (by simp [jsTypeof])]
    dsimp only [propAccess]
    simp only [getField] at hu
    simp [hu]


/-- C1 counterexample: a rejection message of the wire shape documented by
the spec, with the type tag at the top level of the envelope and reason
`busy`, is not resolved to `Error(busy)`: the code reads the type from
`message.body.type`, finds `undefined` there, and throws the
unsupported-type error instead. Moreover, when the reason is absent the
default message is `ACK-NAK received; no reason given`, not
`rejected, no reason given`. -/
theorem claim1_counterexample :
    extractResultOrReceiptFromMaybeAsyncResponse ackNakDocShapeMsg "drone1"
      = .error (.thrown "Error" "undefined messages do not contain receipts") ∧
    extractResultOrReceiptFromMaybeAsyncResponse ackNakDocShapeMsg "drone1"
      ≠ .error (.thrown "Error" "busy") ∧
    extractResultOrReceiptFromMaybeAsyncResponse ackNakNoReasonMsg "drone1"
      = .error (.thrown "Error" "ACK-NAK received; no reason given") ∧
    extractResultOrReceiptFromMaybeAsyncResponse ackNakNoReasonMsg "drone1"
      ≠ .error (.thrown "Error" "rejected, no reason given") := by
  refine ⟨rfl, ?_, rfl, ?_⟩
  · intro h
    rw [show extractResultOrReceiptFromMaybeAsyncResponse ackNakDocShapeMsg "drone1"
      = .error (.thrown "Error" "undefined messages do not contain receipts") from rfl] at h
    injection h with h1
    exact absurd h1 (by decide)
  · intro h
    rw [show extractResultOrReceiptFromMaybeAsyncResponse ackNakNoReasonMsg "drone1"
      = .error (.thrown "Error" "ACK-NAK received; no reason given") from rfl] at h
    injection h with h1
    exact absurd h1 (by decide)

/-- C1 (amended): for every message whose body carries the type tag
`ACK-NAK` (the wire shape is `\x7b body: \x7b type: "ACK-NAK", reason?: string \x7d \x7d`),
extraction resolves every target id to a thrown Error whose message is the
body-level reason field when that field is a nonempty string, and the
generic default `ACK-NAK received; no reason given` when the reason is
absent. -/
theorem claim1_ackNakRejection (message body : JSVal) (uavId : String)
    (hm : propAccess message "body" = some body)
    (ht : propAccess body "type" = some (.str "ACK-NAK")) :
    (∀ s : String, getField body "reason" = .str s → s ≠ "" →
      extractResultOrReceiptFromMaybeAsyncResponse message uavId
        = .error (.thrown "Error" s)) ∧
    (getField body "reason" = JSVal.undefined →
      extractResultOrReceiptFromMaybeAsyncResponse message uavId
        = .error (.thrown "Error" "ACK-NAK received; no reason given")) := by
  constructor
  · intro s hs hne
    unfold extractResultOrReceiptFromMaybeAsyncResponse
    rw [hm]; dsimp only; rw [ht]; dsimp only
    simp [strictEqStr, hs, jsOr, jsTruthy, jsToString, bne_iff_ne, hne]
  · intro hs
    unfold extractResultOrReceiptFromMaybeAsyncResponse
    rw [hm]; dsimp only; rw [ht]; dsimp only
    simp [strictEqStr, hs, jsOr, jsTruthy, jsToString]

/-- C1 witness: a body-typed rejection with reason `busy` yields
`Error(busy)` for target `a`. -/
theorem claim1_ackNakRejection_witness :
    extractResultOrReceiptFromMaybeAsyncResponse
      (.obj [("body", .obj [("type", .str "ACK-NAK"), ("reason", .str "busy")])]) "a"
      = .error (.thrown "Error" "busy") :=
  (claim1_ackNakRejection
    (.obj [("body", .obj [("type", .str "ACK-NAK"), ("reason", .str "busy")])])
    (.obj [("type", .str "ACK-NAK"), ("reason", .str "busy")])
    "a" rfl rfl).1 "busy" rfl (by decide)

/-- C2: for a receipt-bearing response type, extraction follows the
precedence error, then result, then receipt: an error entry for the target
id produces a thrown Error even when the result and receipt maps also have
entries; otherwise a result entry produces the result object even when the
receipt map also has an entry; otherwise a receipt entry produces the
receipt object. -/
theorem claim2_outcomePrecedence (message body : JSVal) (t uavId : String)
    (errFs resFs recFs : List (String × JSVal))
    (hm : propAccess message "body" = some body)
    (ht : propAccess body "type" = some (.str t))
    (hrb : jsTruthy (getField MESSAGES_WITH_RECEIPTS t) = true)
    (he : getField body "error" = .obj errFs)
    (hr : getField body "result" = .obj resFs)
    (hc : getField body "receipt" = .obj recFs) :
    (∀ e, errFs.lookup uavId = some e → isUndefined e = false →
      extractResultOrReceiptFromMaybeAsyncResponse message uavId
        = .error (.thrown "Error" (jsToString (jsOr e (.str "Failed to execute command"))))) ∧
    (hasEntryFor (.obj errFs) uavId = false →
      ∀ r, resFs.lookup uavId = some r → isUndefined r = false →
      extractResultOrReceiptFromMaybeAsyncResponse message uavId
        = .ok (.obj [("result", r)])) ∧
    (hasEntryFor (.obj errFs) uavId = false → hasEntryFor (.obj resFs) uavId = false →
      ∀ cv, recFs.lookup uavId = some cv → isUndefined cv = false →
      extractResultOrReceiptFromMaybeAsyncResponse message uavId
        = .ok (.obj [("receipt", cv)])) := by
  have key := extract_receiptBearing_eq message body t uavId hm ht hrb
  rw [he, hr, hc] at key
  refine ⟨?_, ?_, ?_⟩
  · intro e hl hu
    rw [key, if_pos (by simp [hasEntryFor, jsTruthy, getField, hl, hu])]
    simp [getField, hl]
  · intro hno r hl hu
    rw [key, if_neg (by simp [hno]), if_pos (by simp [hasEntryFor, jsTruthy, getField, hl, hu])]
    simp [getField, hl]
  · intro hnoE hnoR cv hl hu
    rw [key, if_neg (by simp [hnoE]), if_neg (by simp [hnoR]),
      if_pos (by simp [hasEntryFor, jsTruthy, getField, hl, hu])]
    simp [getField, hl]

/-- C2 witness: with all three maps carrying an entry for `a`, the error
entry wins. -/
theorem claim2_outcomePrecedence_witness :
    extractResultOrReceiptFromMaybeAsyncResponse
      (.obj [("body", .obj [("type", .str "OBJ-CMD"),
        ("error", .obj [("a", .str "boom")]),
        ("result", .obj [("a", .num 1)]),
        ("receipt", .obj [("a", .str "tok")])])]) "a"
      = .error (.thrown "Error" "boom") :=
  (claim2_outcomePrecedence
    (.obj [("body", .obj [("type", .str "OBJ-CMD"),
      ("error", .obj [("a", .str "boom")]),
      ("result", .obj [("a", .num 1)]),
      ("receipt", .obj [("a", .str "tok")])])])
    (.obj [("type", .str "OBJ-CMD"),
      ("error", .obj [("a", .str "boom")]),
      ("result", .obj [("a", .num 1)]),
      ("receipt", .obj [("a", .str "tok")])])
    "OBJ-CMD" "a"
    [("a", .str "boom")] [("a", .num 1)] [("a", .str "tok")]
    rfl rfl (by decide) rfl rfl rfl).1 (.str "boom") rfl rfl

/-- C3: a string type tag is recognized as receipt-bearing exactly when it
belongs to the fixed closed set of eight command types, and every response
whose body-level type is a string that is neither `ACK-NAK` nor in the set
fails with the unsupported-type protocol error, regardless of the contents
of the body. -/
theorem claim3_receiptBearingAllowList :
    (∀ t : String, jsTruthy (getField MESSAGES_WITH_RECEIPTS t) = true ↔
      (t = "OBJ-CMD" ∨ t = "UAV-FLY" ∨ t = "UAV-HALT" ∨ t = "UAV-LAND" ∨
       t = "UAV-RST" ∨ t = "UAV-RTH" ∨ t = "UAV-SIGNAL" ∨ t = "UAV-TAKEOFF")) ∧
    (∀ (message body : JSVal) (uavId t : String),
      propAccess message "body" = some body →
      propAccess body "type" = some (.str t) →
      t ≠ "ACK-NAK" →
      ¬(t = "OBJ-CMD" ∨ t = "UAV-FLY" ∨ t = "UAV-HALT" ∨ t = "UAV-LAND" ∨
        t = "UAV-RST" ∨ t = "UAV-RTH" ∨ t = "UAV-SIGNAL" ∨ t = "UAV-TAKEOFF") →
      extractResultOrReceiptFromMaybeAsyncResponse message uavId
        = .error (.thrown "Error" (t ++ " messages do not contain receipts"))) := by
  refine ⟨receiptBearing_iff, ?_⟩
  intro message body uavId t hm ht hak hset
  have hf : jsTruthy (getField MESSAGES_WITH_RECEIPTS t) = false := by
    cases h : jsTruthy (getField MESSAGES_WITH_RECEIPTS t)
    · rfl
    · exact absurd ((receiptBearing_iff t).mp h) hset
  unfold extractResultOrReceiptFromMaybeAsyncResponse
  rw [hm]; dsimp only; rw [ht]; dsimp only
  simp [strictEqStr, beq_eq_false_iff_ne.mpr hak, jsToString, hf]

/-- C3 witness: `UAV-LAND` is receipt-bearing; a `SYS-VER` response fails
with the unsupported-type error even though its result map has an entry. -/
theorem claim3_receiptBearingAllowList_witness :
    (jsTruthy (getField MESSAGES_WITH_RECEIPTS "UAV-LAND") = true) ∧
    extractResultOrReceiptFromMaybeAsyncResponse
      (.obj [("body", .obj [("type", .str "SYS-VER"),
        ("result", .obj [("a", .num 1)])])]) "a"
      = .error (.thrown "Error" "SYS-VER messages do not contain receipts") :=
  ⟨(claim3_receiptBearingAllowList.1 "UAV-LAND").mpr
      (Or.inr (Or.inr (Or.inr (Or.inl rfl)))),
    claim3_receiptBearingAllowList.2
      (.obj [("body", .obj [("type", .str "SYS-VER"), ("result", .obj [("a", .num 1)])])])
      (.obj [("type", .str "SYS-VER"), ("result", .obj [("a", .num 1)])])
      "a" "SYS-VER" rfl rfl (by decide) (by decide)⟩

/-- C4: on a receipt-bearing response with no applicable entry in any of
the error, result and receipt maps, extraction fails with the
missing-outcome protocol error, and that failure differs from every
unsupported-type error and from the timeout failure. -/
theorem claim4_missingOutcome (message body : JSVal) (t uavId : String)
    (hm : propAccess message "body" = some body)
    (ht : propAccess body "type" = some (.str t))
    (hrb : jsTruthy (getField MESSAGES_WITH_RECEIPTS t) = true)
    (he : hasEntryFor (getField body "error") uavId = false)
    (hr : hasEntryFor (getField body "result") uavId = false)
    (hc : hasEntryFor (getField body "receipt") uavId = false) :
    extractResultOrReceiptFromMaybeAsyncResponse message uavId
      = .error (.thrown "Error"
          "Server did not provide a response or receipt for the command") ∧
    (∀ s : String,
      (JSException.thrown "Error"
          "Server did not provide a response or receipt for the command")
        ≠ .thrown "Error" (s ++ " messages do not contain receipts")) ∧
    (JSException.thrown "Error"
        "Server did not provide a response or receipt for the command")
      ≠ timeoutFailure := by
  refine ⟨?_, ?_, by decide⟩
  · rw [extract_receiptBearing_eq message body t uavId hm ht hrb,
      if_neg (by simp [he]), if_neg (by simp [hr]), if_neg (by simp [hc])]
  · intro s h
    injection h with h1 h2
    have h3 := congrArg (fun str => str.data.getLast?) h2
    simp only at h3
    rw [string_append_getLast s " messages do not contain receipts" (by decide)] at h3
    exact absurd h3 (by decide)

/-- C4 witness: a `UAV-RTH` response with an empty body yields the
missing-outcome error for target `a`. -/
theorem claim4_missingOutcome_witness :
    extractResultOrReceiptFromMaybeAsyncResponse
      (.obj [("body", .obj [("type", .str "UAV-RTH")])]) "a"
      = .error (.thrown "Error"
          "Server did not provide a response or receipt for the command") :=
  (claim4_missingOutcome
    (.obj [("body", .obj [("type", .str "UAV-RTH")])])
    (.obj [("type", .str "UAV-RTH")])
    "UAV-RTH" "a" rfl rfl (by decide) (by decide) (by decide) (by decide)).1

/-- C5: on a receipt-bearing response whose error map has a present but
falsy entry for the target id (empty string, null, false, or zero),
extraction resolves that target to the generic failure string instead of
the falsy value. -/
theorem claim5_falsyErrorEntry (message body : JSVal) (t uavId : String)
    (errFs : List (String × JSVal)) (e : JSVal)
    (hm : propAccess message "body" = some body)
    (ht : propAccess body "type" = some (.str t))
    (hrb : jsTruthy (getField MESSAGES_WITH_RECEIPTS t) = true)
    (he : getField body "error" = .obj errFs)
    (hl : errFs.lookup uavId = some e)
    (hu : isUndefined e = false)
    (hfalsy : jsTruthy e = false) :
    extractResultOrReceiptFromMaybeAsyncResponse message uavId
      = .error (.thrown "Error" "Failed to execute command") := by
  rw [extract_receiptBearing_eq message body t uavId hm ht hrb, he,
    if_pos (by simp [hasEntryFor, jsTruthy, getField, hl, hu])]
  simp [getField, hl, jsOr, hfalsy, jsToString]

/-- C5 witness: an empty-string error entry for `a` yields the generic
failure message even though a result entry is also present. -/
theorem claim5_falsyErrorEntry_witness :
    extractResultOrReceiptFromMaybeAsyncResponse
      (.obj [("body", .obj [("type", .str "UAV-TAKEOFF"),
        ("error", .obj [("a", .str "")]),
        ("result", .obj [("a", .num 1)])])]) "a"
      = .error (.thrown "Error" "Failed to execute command") :=
  claim5_falsyErrorEntry
    (.obj [("body", .obj [("type", .str "UAV-TAKEOFF"),
      ("error", .obj [("a", .str "")]),
      ("result", .obj [("a", .num 1)])])])
    (.obj [("type", .str "UAV-TAKEOFF"),
      ("error", .obj [("a", .str "")]),
      ("result", .obj [("a", .num 1)])])
    "UAV-TAKEOFF" "a" [("a", .str "")] (.str "")
    rfl rfl (by decide) rfl rfl (by decide) (by decide)

/-- C6: for every message and target id, one call to the extractor either
fails with an error, or returns an object carrying only a result, or
returns an object carrying only a receipt; it never returns an object with
both tags or with neither. -/
theorem claim6_exactlyOneTag (message : JSVal) (uavId : String) :
    (∃ ex, extractResultOrReceiptFromMaybeAsyncResponse message uavId = .error ex) ∨
    (∃ v, extractResultOrReceiptFromMaybeAsyncResponse message uavId
      = .ok (.obj [("result", v)])) ∨
    (∃ v, extractResultOrReceiptFromMaybeAsyncResponse message uavId
      = .ok (.obj [("receipt", v)])) := by
  unfold extractResultOrReceiptFromMaybeAsyncResponse
  repeat' first
    | exact Or.inl ⟨_, rfl⟩
    | exact Or.inr (Or.inl ⟨_, rfl⟩)
    | exact Or.inr (Or.inr ⟨_, rfl⟩)
    | split
    | dsimp only

/-- C7 counterexample: when both the status and the error map have an entry
for the requested id, the code throws the error case instead of returning
the status entry, so the status entry is not returned before any
consideration of the error map. -/
theorem claim7_counterexample :
    extractResponseForId statusAndErrorMsg "a" (.obj [])
      = .error (.thrown "TypeError" "boom") ∧
    extractResponseForId statusAndErrorMsg "a" (.obj []) ≠ .ok (.num 1) := by
  refine ⟨rfl, ?_⟩
  intro h
  rw [show extractResponseForId statusAndErrorMsg "a" (.obj [])
    = .error (.thrown "TypeError" "boom") from rfl] at h
  exact Except.noConfusion h

/-- C7 (amended): the status entry is returned whenever the status map has
a defined entry for the requested id and the error map yields no applicable
entry for it (the error map is consulted first). -/
theorem claim7_statusEntryReturned (message : JSVal) (id : String) (options : JSVal)
    (herr : jsTypeof (lodashGet message ["body", "error"]) ≠ "object" ∨
            ∃ efs, lodashGet message ["body", "error"] = .obj efs ∧
                   isUndefined (getField (.obj efs) id) = true)
    (sfs : List (String × JSVal)) (v : JSVal)
    (hs : lodashGet message ["body", "status"] = .obj sfs)
    (hv : sfs.lookup id = some v)
    (hnu : isUndefined v = false) :
    extractResponseForId message id options = .ok v := by
  rw [extractResponseForId_fallThrough message id options herr,
    statusLookupForId_ok message id sfs v hs hv hnu]

/-- C7 witness: with no error map, the status entry for `a` is returned. -/
theorem claim7_statusEntryReturned_witness :
    extractResponseForId
      (.obj [("body", .obj [("status", .obj [("a", .num 42)])])]) "a" (.obj [])
      = .ok (.num 42) :=
  claim7_statusEntryReturned
    (.obj [("body", .obj [("status", .obj [("a", .num 42)])])]) "a" (.obj [])
    (Or.inl (by decide)) [("a", .num 42)] (.num 42) rfl rfl (by decide)

/-- C8: when the error map has a defined entry for the requested id, the
call fails with that entry as the reason (a TypeError) exactly when the
entry is literally a string; for any non-string entry the reason is the
generic retrieval-failure message instead. -/
theorem claim8_errorEntryReason (message : JSVal) (id : String)
    (efs : List (String × JSVal)) (e : JSVal)
    (he : lodashGet message ["body", "error"] = .obj efs)
    (hl : efs.lookup id = some e)
    (hu : isUndefined e = false) :
    (∀ s : String, e = .str s →
      extractResponseForId message id (.obj [])
        = .error (.thrown "TypeError" s)) ∧
    (jsTypeof e ≠ "string" →
      extractResponseForId message id (.obj [])
        = .error (.thrown "Error"
            ("Failed to retrieve result for ID " ++ id ++ " from response"))) := by
  constructor
  · intro s hs
    subst hs
    unfold extractResponseForId
    try dsimp only
    rw [he, if_pos (by simp [jsTypeof])]
    dsimp only [propAccess]
    rw [hl]
    dsimp only [Option.getD]
    simp [isUndefined, jsTypeof, jsToString]
  · intro hns
    unfold extractResponseForId
    dsimp only
    rw [he, if_pos (by simp [jsTypeof])]
    dsimp only [propAccess]
    rw [hl]
    dsimp only [Option.getD]
    rw [if_pos (by simp [hu])]
    rw [if_neg (by simp [beq_iff_eq]; exact hns)]
    try dsimp only [propAccess]
    simp [propAccess, jsOr, jsTruthy, jsToString]

/-- C8 witness: a string error entry `boom` for id `a` becomes the thrown
TypeError reason. -/
theorem claim8_errorEntryReason_witness :
    extractResponseForId
      (.obj [("body", .obj [("error", .obj [("a", .str "boom")])])]) "a" (.obj [])
      = .error (.thrown "TypeError" "boom") :=
  (claim8_errorEntryReason
    (.obj [("body", .obj [("error", .obj [("a", .str "boom")])])]) "a"
    [("a", .str "boom")] (.str "boom") rfl rfl (by decide)).1 "boom" rfl

/-- C9: when neither the status map nor the error map yields an applicable
entry for the requested id, the call fails with the internal-inconsistency
error, which differs from every TypeError failure and from every generic
retrieval-failure message produced by an error entry. -/
theorem claim9_internalInconsistency (message : JSVal) (id : String)
    (herr : jsTypeof (lodashGet message ["body", "error"]) ≠ "object" ∨
            ∃ efs, lodashGet message ["body", "error"] = .obj efs ∧
                   isUndefined (getField (.obj efs) id) = true)
    (hst : jsTypeof (lodashGet message ["body", "status"]) ≠ "object" ∨
           ∃ sfs, lodashGet message ["body", "status"] = .obj sfs ∧
                  isUndefined (getField (.obj sfs) id) = true) :
    extractResponseForId message id (.obj [])
      = .error (.thrown "Error"
          ("No result for ID " ++ id ++ " but no error either; this should not have happened.")) ∧
    (∀ s : String,
      (JSException.thrown "Error"
          ("No result for ID " ++ id ++ " but no error either; this should not have happened."))
        ≠ .thrown "TypeError" s) ∧
    (∀ id2 : String,
      (JSException.thrown "Error"
          ("No result for ID " ++ id ++ " but no error either; this should not have happened."))
        ≠ .thrown "Error"
            ("Failed to retrieve result for ID " ++ id2 ++ " from response")) := by
  refine ⟨?_, ?_, ?_⟩
  · rw [extractResponseForId_fallThrough message id (.obj []) herr,
      statusLookupForId_missing message id hst]
  · intro s h
    injection h with h1 h2
    exact absurd h1 (by decide)
  · intro id2 h
    injection h with h1 h2
    have h3 := congrArg (fun str => str.data.getLast?) h2
    simp only at h3
    rw [string_append_getLast ("No result for ID " ++ id)
      " but no error either; this should not have happened." (by decide)] at h3
    rw [string_append_getLast ("Failed to retrieve result for ID " ++ id2)
      " from response" (by decide)] at h3
    exact absurd h3 (by decide)

/-- C9 witness: an empty body yields the internal-inconsistency error for
id `a`. -/
theorem claim9_internalInconsistency_witness :
    extractResponseForId (.obj [("body", .obj [])]) "a" (.obj [])
      = .error (.thrown "Error"
          ("No result for ID a but no error either; this should not have happened.")) :=
  (claim9_internalInconsistency (.obj [("body", .obj [])]) "a"
    (Or.inl (by decide)) (Or.inl (by decide))).1

/-- C10: when the error field of the body is present but not of object
type, the error branch is never taken: the call returns the status entry
when the status map has one for the requested id, and otherwise fails with
the internal-inconsistency error. -/
theorem claim10_nonObjectErrorField (message : JSVal) (id : String)
    (_hp : lodashGet message ["body", "error"] ≠ JSVal.undefined)
    (hto : jsTypeof (lodashGet message ["body", "error"]) ≠ "object") :
    (∀ (sfs : List (String × JSVal)) (v : JSVal),
      lodashGet message ["body", "status"] = .obj sfs →
      sfs.lookup id = some v →
      isUndefined v = false →
      extractResponseForId message id (.obj []) = .ok v) ∧
    ((jsTypeof (lodashGet message ["body", "status"]) ≠ "object" ∨
      ∃ sfs, lodashGet message ["body", "status"] = .obj sfs ∧
             isUndefined (getField (.obj sfs) id) = true) →
      extractResponseForId message id (.obj [])
        = .error (.thrown "Error"
            ("No result for ID " ++ id ++ " but no error either; this should not have happened."))) := by
  constructor
  · intro sfs v hs hv hnu
    rw [extractResponseForId_fallThrough message id (.obj []) (Or.inl hto),
      statusLookupForId_ok message id sfs v hs hv hnu]
  · intro hst
    rw [extractResponseForId_fallThrough message id (.obj []) (Or.inl hto),
      statusLookupForId_missing message id hst]

/-- C10 witness: with a plain-string error field, the status entry for `a`
is returned. -/
theorem claim10_nonObjectErrorField_witness :
    extractResponseForId
      (.obj [("body", .obj [("error", .str "oops"),
                            ("status", .obj [("a", .num 7)])])]) "a" (.obj [])
      = .ok (.num 7) :=
  (claim10_nonObjectErrorField
    (.obj [("body", .obj [("error", .str "oops"),
                          ("status", .obj [("a", .num 7)])])]) "a"
    (fun h => JSVal.noConfusion h) (by decide)).1 [("a", .num 7)] (.num 7) rfl rfl (by decide)

end SkybrushLive
